import Mathlib

/-!
# Verification model of the AI-PLATFORM repository

Shallow embedding of the two source variants of the repository
(`src/index.js` and the BotHost v2 variant `src/unnamed/part_000`):
the SQLite data model and prepared statements, the JWT session tokens,
the Express auth middleware, the Telegram auth handshake broker
(`authRequests` map, `/api/auth/init`, `/api/auth/status`, the bot
`/start` confirm branch) and the chat message-send handlers.

Conventions of the embedding:
* All times are naturals measured in milliseconds; calendar dates used by
  the SQLite `date(...)` comparisons are naturals measured in days.  The
  SQLite statements only ever compare whole dates, so the wall-clock time
  of day never enters the model.
* SQLite rows are Lean structures; a table is a `List` of rows; prepared
  statements become total Lean functions on a `Db` state.
* Promise resolution is made explicit: the value passed to a stored
  `resolve` function is appended to a `resolvedLog`, and `Promise.race`
  is modelled by `promiseRace`, which settles with the earliest-settling
  argument (a plain, non-thenable argument settles immediately).
* The external AI collaborators (Google, Cohere, ...) are modelled as an
  `Except`/outcome parameter of the handler, exactly at the `await` point
  of the source.
-/

namespace AIPlatform

/-- Seven days in milliseconds: the `expiresIn: '7d'` argument of `jwt.sign`. -/
def JWT_TTL_MS : Nat := 7 * 24 * 60 * 60 * 1000

/-- Five minutes in milliseconds: the `setTimeout(() => authRequests.delete(code), 5 * 60 * 1000)`
of `/api/auth/init` (written `300000` in the part_000 variant). -/
def AUTH_TTL_MS : Nat := 5 * 60 * 1000

/-- Thirty seconds in milliseconds: the long-poll timeout of `/api/auth/status`. -/
def POLL_TIMEOUT_MS : Nat := 30 * 1000

-- ---------------------------------------------------------------------------
-- Data model: rows of the SQLite tables of src/index.js
-- ---------------------------------------------------------------------------

/-- A row of the `users` table of `src/index.js`.  Column defaults follow the
schema: `role 'user'`, `plan 'free'`, `daily_limit 100`, `used_today 0`,
totals `0`, and `last_reset` has NO default, so a row created by
`dbHelpers.createUser` (which only supplies `telegram_id, username,
first_name, last_name`) carries `last_reset = NULL`, modelled as `none`.
Dates are day numbers. -/
structure User where
  id : Nat
  telegram_id : String
  username : String
  first_name : String
  last_name : String
  role : String
  plan : String
  daily_limit : Nat
  used_today : Nat
  total_messages : Nat
  total_tokens : Nat
  total_chats : Nat
  last_reset : Option Nat
  is_blocked : Bool
deriving DecidableEq, Repr

/-- A row of the `chats` table. -/
structure Chat where
  id : Nat
  user_id : Nat
  title : String
  model : String
  updated_at : Nat
deriving DecidableEq, Repr

/-- A row of the `messages` table. -/
structure Message where
  id : Nat
  chat_id : Nat
  role : String
  content : String
  model : Option String
  tokens : Nat
  processing_time : Nat
deriving DecidableEq, Repr

/-- The database state: the three tables the claims are about, plus the
AUTOINCREMENT counters.  The `settings` table is not modelled: no claim
mentions it. -/
structure Db where
  users : List User
  chats : List Chat
  messages : List Message
  nextUserId : Nat
  nextMessageId : Nat
deriving DecidableEq, Repr

-- ---------------------------------------------------------------------------
-- dbHelpers: the prepared statements used by the claims
-- ---------------------------------------------------------------------------

/-- `dbHelpers.getUser`: `SELECT * FROM users WHERE telegram_id = ?`. -/
def getUser (db : Db) (tid : String) : Option User :=
  db.users.find? (fun u => u.telegram_id == tid)

/-- `dbHelpers.getChat`: `SELECT * FROM chats WHERE id = ? AND user_id = ?`.
Both variants scope every chat lookup by the requesting user id. -/
def getChat (db : Db) (chatId userId : Nat) : Option Chat :=
  db.chats.find? (fun c => c.id == chatId && c.user_id == userId)

/-- `dbHelpers.getChatMessages`: `SELECT * FROM messages WHERE chat_id = ?`
(insertion order is creation order, matching the `ORDER BY` of the source). -/
def getChatMessages (db : Db) (chatId : Nat) : List Message :=
  db.messages.filter (fun m => m.chat_id == chatId)

/-- `dbHelpers.createMessage`: insert a row into `messages` and return it. -/
def createMessage (db : Db) (chatId : Nat) (role content : String)
    (model : Option String) (tokens ptime : Nat) : Db × Message :=
  let m : Message :=
    { id := db.nextMessageId, chat_id := chatId, role := role, content := content
      model := model, tokens := tokens, processing_time := ptime }
  ({ db with messages := db.messages ++ [m], nextMessageId := db.nextMessageId + 1 }, m)

/-- One row under `dbHelpers.resetDailyLimit`:
`UPDATE users SET used_today = 0, last_reset = date(now) WHERE date(last_reset) < date(now)`.
In SQLite `date(NULL)` is `NULL` and `NULL < d` evaluates to `NULL`, which is
not true, so a row whose `last_reset` is `NULL` never satisfies the WHERE
clause and is left untouched. -/
def resetUserRow (today : Nat) (u : User) : User :=
  match u.last_reset with
  | some d => if d < today then { u with used_today := 0, last_reset := some today } else u
  | none => u

/-- `dbHelpers.resetDailyLimit` (and `db_users.resetDaily` of part_000): the
lazy daily reset, applied to EVERY row of the `users` table. -/
def resetDailyLimit (today : Nat) (db : Db) : Db :=
  { db with users := db.users.map (resetUserRow today) }

/-- `dbHelpers.incrementUserStats` of `src/index.js`:
`total_messages += ?`, `total_tokens += ?`, `used_today += 1` for one user. -/
def incrementUserStats (msgs toks uid : Nat) (db : Db) : Db :=
  { db with users := db.users.map (fun v =>
      if v.id == uid then
        { v with total_messages := v.total_messages + msgs
                 total_tokens := v.total_tokens + toks
                 used_today := v.used_today + 1 }
      else v) }

/-- `db_users.incrementUsage` of part_000:
`used_today += 1`, `total_messages += 1` for one user. -/
def incrementUsage (uid : Nat) (db : Db) : Db :=
  { db with users := db.users.map (fun v =>
      if v.id == uid then
        { v with used_today := v.used_today + 1, total_messages := v.total_messages + 1 }
      else v) }

/-- `dbHelpers.updateChatTimestamp`: `UPDATE chats SET updated_at = datetime(now)`. -/
def updateChatTimestamp (now chatId : Nat) (db : Db) : Db :=
  { db with chats := db.chats.map (fun c =>
      if c.id == chatId then { c with updated_at := now } else c) }

/-- `UPDATE chats SET title = ? WHERE id = ?` (the auto-title statement). -/
def setChatTitle (chatId : Nat) (title : String) (db : Db) : Db :=
  { db with chats := db.chats.map (fun c =>
      if c.id == chatId then { c with title := title } else c) }

-- ---------------------------------------------------------------------------
-- Session tokens (jsonwebtoken)
-- ---------------------------------------------------------------------------

/-- The payload signed by both variants: `{ userId: user.id, telegramId: user.telegram_id }`
(named `tid` in part_000). -/
structure JwtPayload where
  userId : Nat
  telegramId : String
deriving DecidableEq, Repr

/-- A signed token.  The message-authentication scheme is modelled by carrying
the signing secret inside the token: a signature check succeeds exactly when
the verifying secret equals the signing secret. -/
structure Token where
  payload : JwtPayload
  iat : Nat
  exp : Nat
  secret : String
deriving DecidableEq, Repr

/-- `jwt.sign(payload, secret, { expiresIn: '7d' })`. -/
def jwtSign (p : JwtPayload) (secret : String) (now : Nat) : Token :=
  { payload := p, iat := now, exp := now + JWT_TTL_MS, secret := secret }

/-- `jwt.verify(token, secret)`: rejects a bad signature, and rejects an
expired token (jsonwebtoken treats the token as expired once the clock
reaches `exp`, so the token is valid exactly while `now < exp`). -/
def jwtVerify (t : Token) (secret : String) (now : Nat) : Option JwtPayload :=
  if t.secret == secret && decide (now < t.exp) then some t.payload else none

-- ---------------------------------------------------------------------------
-- Auth middleware (src/index.js lines 494-513)
-- ---------------------------------------------------------------------------

/-- Outcome of the auth middleware: either the request proceeds with a user
attached, or a 401 response with a message and no user attached. -/
inductive AuthOut where
  | ok (user : User)
  | unauthorized (message : String)
deriving DecidableEq, Repr

/-- Whether the middleware attached a user and let the request proceed. -/
def AuthOut.isOk : AuthOut → Bool
  | .ok _ => true
  | .unauthorized _ => false

/-- The `authMiddleware` of `src/index.js`: missing token gives 401; a failed
`jwt.verify` throws and the catch answers 401; a token whose subject resolves
to no user row, or to a blocked user, answers 401.  Only `.ok` attaches a
user to the request. -/
def authMiddleware (db : Db) (secret : String) (now : Nat) (token : Option Token) : AuthOut :=
  match token with
  | none => .unauthorized "Требуется авторизация"
  | some t =>
    match jwtVerify t secret now with
    | none => .unauthorized "Неверный токен"
    | some decoded =>
      match getUser db decoded.telegramId with
      | none => .unauthorized "Доступ запрещён"
      | some user =>
        if user.is_blocked then .unauthorized "Доступ запрещён" else .ok user

-- ---------------------------------------------------------------------------
-- Auth handshake broker (authRequests map + promise plumbing)
-- ---------------------------------------------------------------------------

/-- The Telegram user attached to an incoming bot message (`msg.from`).
`none` models a falsy (absent or empty) `username` / name field, matching the
`||` fallbacks of the source. -/
structure TgUser where
  id : Nat
  username : Option String
  first_name : Option String
  last_name : Option String
deriving DecidableEq, Repr

/-- The row inserted by `dbHelpers.createUser` for a fresh Telegram user:
only `telegram_id, username, first_name, last_name` are supplied, every
other column takes its schema default; in particular `last_reset` has no
default and stays `NULL`. -/
def mkNewUser (uid : Nat) (tg : TgUser) : User :=
  { id := uid
    telegram_id := toString tg.id
    username := tg.username.getD ("user_" ++ toString tg.id)
    first_name := tg.first_name.getD ""
    last_name := tg.last_name.getD ""
    role := "user", plan := "free"
    daily_limit := 100, used_today := 0
    total_messages := 0, total_tokens := 0, total_chats := 0
    last_reset := none, is_blocked := false }

/-- The `getUser` / `createUser` / `getUser` sequence of `handleWebAuth`
and `showMainMenu`: fetch the user, creating the row on first contact. -/
def getOrCreateUser (db : Db) (tg : TgUser) : Db × User :=
  match getUser db (toString tg.id) with
  | some u => (db, u)
  | none =>
    let u := mkNewUser db.nextUserId tg
    ({ db with users := db.users ++ [u], nextUserId := db.nextUserId + 1 }, u)

/-- The payload passed to a stored `resolve` function on confirmation:
`{ success: true, token, user }`. -/
structure Resolution where
  token : Token
  user : User
deriving DecidableEq, Repr

/-- The broker state: `authRequests` maps a code to its creation time
(`timestamp: Date.now()`), and `resolvedLog` records every value ever passed
to a stored `resolve` function, making promise resolution observable. -/
structure Broker where
  pending : List (String × Nat)
  resolvedLog : List (String × Resolution)
deriving DecidableEq, Repr

/-- `POST /api/auth/init`: generate a code (passed in as the fresh uuid),
register it with the current time, schedule its deletion after `AUTH_TTL_MS`
(enacted by `gcAuth`), and hand the code back. -/
def authInit (st : Broker) (code : String) (now : Nat) : Broker :=
  { st with pending := (code, now) :: st.pending }

/-- The `setTimeout(() => authRequests.delete(code), AUTH_TTL_MS)` timers:
on the single-threaded event loop every timer whose deadline has been
reached fires before a handler observing time `now` runs, so each handler
acts on the garbage-collected state. -/
def gcAuth (now : Nat) (st : Broker) : Broker :=
  { st with pending := st.pending.filter (fun p => decide (now < p.2 + AUTH_TTL_MS)) }

/-- Outcome of the bot `/start <code>` confirm branch as seen by the web side. -/
inductive ConfirmOut where
  | invalidCode
  | confirmed (r : Resolution)
deriving DecidableEq, Repr

/-- `handleWebAuth(msg, authCode)` of `src/index.js` (the part_000 confirm
branch is structurally identical): an unknown code answers the Telegram chat
with an invalid-code message and changes nothing; a known code fetches or
creates the user, signs a 7-day token, calls the stored `resolve` with
`{ success: true, token, user }` (recorded in `resolvedLog`) and deletes the
code from `authRequests`. -/
def handleWebAuth (secret : String) (st : Broker) (db : Db) (code : String)
    (tg : TgUser) (now : Nat) : ConfirmOut × Broker × Db :=
  match (gcAuth now st).pending.lookup code with
  | none => (.invalidCode, gcAuth now st, db)
  | some _created =>
    let user := (getOrCreateUser db tg).2
    let token := jwtSign { userId := user.id, telegramId := user.telegram_id } secret now
    let r : Resolution := { token := token, user := user }
    (.confirmed r,
      { pending := (gcAuth now st).pending.filter (fun p => !(p.1 == code))
        resolvedLog := (code, r) :: (gcAuth now st).resolvedLog },
      (getOrCreateUser db tg).1)

/-- A value raced inside the status handler of `src/index.js`:
`Promise.race([authRequests.get(authCode).resolve, new Promise(res => setTimeout(...))])`.
`resolveFn` is the stored resolve FUNCTION itself — a plain JS value, not a
thenable; `timerPending` is the 30 s timer settling with `{status: pending}`;
`confirmPayload` is what a promise delivering the confirmation payload would
settle with (the shape `result.success` tests for). -/
inductive Raced where
  | resolveFn
  | timerPending
  | confirmPayload (r : Resolution)
deriving DecidableEq, Repr

/-- One argument of `Promise.race` together with the time at which it
settles.  A plain (non-thenable) argument settles immediately, i.e. at the
time the race is set up. -/
structure Racer where
  settlesAt : Nat
  value : Raced
deriving DecidableEq, Repr

/-- `Promise.race`: settles with the value of the earliest-settling argument
(the first listed wins ties, matching the JS job-queue order). -/
def promiseRace (first : Racer) (rest : List Racer) : Raced :=
  (rest.foldl (fun best r => if r.settlesAt < best.settlesAt then r else best) first).value

/-- The JSON answered by `GET /api/auth/status/:authCode`. -/
inductive StatusOut where
  | expired
  | pending
  | statusError
  | success (r : Resolution)
deriving DecidableEq, Repr

/-- Whether the status response carries `success: true` with the token. -/
def StatusOut.isSuccess : StatusOut → Bool
  | .success _ => true
  | _ => false

/-- `res.json(result.success ? result : { success: false, status: 'pending' })`:
only a confirmation payload has a truthy `success` field; the stored resolve
function and the timer value both fall to the pending branch. -/
def statusValueToResponse : Raced → StatusOut
  | .confirmPayload r => .success r
  | .resolveFn => .pending
  | .timerPending => .pending

/-- `GET /api/auth/status/:authCode` of `src/index.js`: an unknown (or
already deleted) code answers `expired`; otherwise the handler races the
stored resolve function — a plain value, available at once — against the
30-second timer, and maps the winning value through
`result.success ? result : pending`. -/
def authStatusIndex (st : Broker) (code : String) (now : Nat) : StatusOut :=
  match (gcAuth now st).pending.lookup code with
  | none => .expired
  | some _ =>
    statusValueToResponse
      (promiseRace { settlesAt := now, value := .resolveFn }
        [{ settlesAt := now + POLL_TIMEOUT_MS, value := .timerPending }])

-- ---------------------------------------------------------------------------
-- AI generation outcomes
-- ---------------------------------------------------------------------------

/-- The value returned by `aiService.generate` of `src/index.js` on success. -/
structure AiResponse where
  content : String
  tokens : Nat
  processingTime : Nat
  model : String
deriving DecidableEq, Repr

/-- The error object of a failed axios call in part_000: `error.response?.status`. -/
structure AxiosErr where
  status : Option Nat
deriving DecidableEq, Repr

/-- The user-facing error strings of the catch branch of `AI.chat` in part_000. -/
def part000ErrorText (e : AxiosErr) : String :=
  if e.status == some 401 || e.status == some 403 then
    "❌ Ошибка API ключа. Проверьте правильность GOOGLE_AI_KEY в настройках."
  else if e.status == some 429 then
    "⏳ Превышен лимит запросов. Подождите немного и попробуйте снова."
  else
    "⚠️ Произошла ошибка при генерации ответа. Попробуйте позже или проверьте настройки API."

/-- The no-API-key reply of `AI.chat` in part_000. -/
def part000SetupText : String :=
  "👋 Привет! Я AI ассистент.\n\n⚠️ Для полноценной работы нужен Google AI API ключ.\n\n" ++
  "📝 Как настроить:\n1. Перейдите на https://makersuite.google.com/app/apikey\n" ++
  "2. Создайте бесплатный API ключ\n3. В настройках бота на BotHost добавьте переменную:\n" ++
  "   GOOGLE_AI_KEY = ваш_ключ\n4. Перезапустите бота\n\n" ++
  "✨ После этого я смогу отвечать на любые вопросы!"

/-- `AI.chat(messages)` of part_000 (src/unnamed/part_000 lines 92-140): with
no API key it returns a setup message; otherwise the upstream Gemini call
either succeeds with the generated text or fails, and the catch branch turns
the failure into a user-facing error STRING — `AI.chat` never throws, so its
caller always receives a reply string to store and commit. -/
def aiChatPart000 (hasKey : Bool) (upstream : Except AxiosErr String) : String :=
  if !hasKey then part000SetupText
  else
    match upstream with
    | .ok text => text
    | .error e => part000ErrorText e

-- ---------------------------------------------------------------------------
-- Send-message handlers
-- ---------------------------------------------------------------------------

/-- The `!content || !content.trim()` test of part_000: the request is
rejected when the content is empty or whitespace-only (what the JS
`String.prototype.trim` would reduce to the empty string). -/
def isBlank (s : String) : Bool := s.data.all (fun c => c.isWhitespace)

/-- The response of a send-message (or list-messages) route. -/
inductive SendOut where
  | badRequest
  | quotaExceeded
  | notFound
  | genError (message : String)
  | ok (userMessage assistantMessage : Message)
  | fault
deriving DecidableEq, Repr

/-- Whether the route answered 429. -/
def SendOut.isQuotaExceeded : SendOut → Bool
  | .quotaExceeded => true
  | _ => false

/-- The 50-character auto-title of `src/index.js`:
`content.substring(0, 50) + (content.length > 50 ? '...' : '')`. -/
def autoTitleOf (content : String) : String :=
  content.take 50 ++ (if 50 < content.length then "..." else "")

/-- `POST /api/chat/:chatId/message` of `src/index.js` (lines 602-676).
Order of operations, exactly as in the source: run the global lazy daily
reset, refetch the user by `req.user.telegram_id`, answer 429 when
`used_today >= daily_limit`, answer 404 when the chat does not belong to the
user, persist the user turn, then call the AI collaborator (its outcome is
the `gen` parameter, taken at the `await aiService.generate` point, after any
internal provider fallback): on failure the catch answers 500 and nothing
further is written; on success the assistant turn is persisted, the chat
timestamp (and possibly auto-title) updated, and
`incrementUserStats(2, tokens, user.id)` commits the quota.
The `fault` branch marks the state the middleware makes unreachable (no user
row for the authenticated telegram id), where the JS would throw.
The `settings` table round-trip is omitted: no claim concerns it. -/
def sendMessageIndex (db : Db) (today : Nat) (reqTid : String) (chatId : Nat)
    (content : String) (gen : Except String AiResponse) : SendOut × Db :=
  let db1 := resetDailyLimit today db
  match getUser db1 reqTid with
  | none => (.fault, db1)
  | some user =>
    if user.daily_limit ≤ user.used_today then (.quotaExceeded, db1)
    else
      match getChat db1 chatId user.id with
      | none => (.notFound, db1)
      | some chat =>
        let db2 := (createMessage db1 chatId "user" content none 0 0).1
        let userMessage := (createMessage db1 chatId "user" content none 0 0).2
        let history := getChatMessages db2 chatId
        match gen with
        | .error e => (.genError ("Ошибка генерации ответа: " ++ e), db2)
        | .ok ai =>
          let db3 :=
            (createMessage db2 chatId "assistant" ai.content (some ai.model)
              ai.tokens ai.processingTime).1
          let assistantMessage :=
            (createMessage db2 chatId "assistant" ai.content (some ai.model)
              ai.tokens ai.processingTime).2
          let db4 := updateChatTimestamp today chatId db3
          let db5 :=
            if history.length == 1 && (chat.title == "Новый чат") then
              setChatTitle chatId (autoTitleOf content) db4
            else db4
          let db6 := incrementUserStats 2 ai.tokens user.id db5
          (.ok userMessage assistantMessage, db6)

/-- The response of the list-messages route. -/
inductive ListOut where
  | notFound
  | ok (messages : List Message)
deriving DecidableEq, Repr

/-- `GET /api/chat/:chatId/messages` of `src/index.js` (lines 589-599): the
chat is looked up by `(chatId, req.user.id)`; a miss answers 404.  The route
only runs SELECT statements, so it returns no new database state. -/
def getMessagesIndex (db : Db) (reqUserId chatId : Nat) : ListOut :=
  match getChat db chatId reqUserId with
  | none => .notFound
  | some _ => .ok (getChatMessages db chatId)

/-- `POST /api/chat/:id/message` of part_000 (lines 357-414).  Order, as in
the source: reject empty content with 400, answer 404 when the chat does not
belong to the user, run the lazy reset, refetch the user and answer 429 over
quota, persist the user turn, call `AI.chat` (which always returns a string,
absorbing upstream failures), persist that string as the assistant turn, and
commit the quota with `incrementUsage`. -/
def sendMessagePart000 (db : Db) (today : Nat) (reqTid : String) (reqUserId chatId : Nat)
    (content : String) (hasKey : Bool) (upstream : Except AxiosErr String) : SendOut × Db :=
  if isBlank content then (.badRequest, db)
  else
    match getChat db chatId reqUserId with
    | none => (.notFound, db)
    | some _chat =>
      let db1 := resetDailyLimit today db
      match getUser db1 reqTid with
      | none => (.fault, db1)
      | some user =>
        if user.daily_limit ≤ user.used_today then (.quotaExceeded, db1)
        else
          let db2 := (createMessage db1 chatId "user" content none 0 0).1
          let userMessage := (createMessage db1 chatId "user" content none 0 0).2
          let aiReply := aiChatPart000 hasKey upstream
          let db3 := (createMessage db2 chatId "assistant" aiReply none 0 0).1
          let assistantMessage := (createMessage db2 chatId "assistant" aiReply none 0 0).2
          let db4 := incrementUsage user.id db3
          (.ok userMessage assistantMessage, db4)

-- ---------------------------------------------------------------------------
-- Helper lemmas
-- ---------------------------------------------------------------------------

/-- Deleting a code from the pending map removes every binding of that code. -/
theorem lookup_filter_self_eq_none (code : String) (l : List (String × Nat)) :
    (l.filter (fun p => !(p.1 == code))).lookup code = none := by
  induction l with
  | nil => rfl
  | cons hd tl ih =>
    rcases hd with ⟨k, t⟩
    by_cases h : k = code
    · subst h
      simpa using ih
    · have hk : (k == code) = false := by simpa using h
      have hk2 : (code == k) = false := by simpa using Ne.symm h
      simp [List.filter, hk, List.lookup, hk2, ih]

/-- Filtering can only remove bindings: an absent key stays absent. -/
theorem lookup_filter_eq_none (code : String) (l : List (String × Nat))
    (q : String × Nat → Bool) (h : l.lookup code = none) :
    (l.filter q).lookup code = none := by
  induction l with
  | nil => rfl
  | cons hd tl ih =>
    rcases hd with ⟨k, t⟩
    by_cases hk : code = k
    · subst hk
      simp [List.lookup] at h
    · have hk2 : (code == k) = false := by simpa using hk
      simp only [List.lookup, hk2] at h
      by_cases hq : q (k, t)
      · simp [List.filter, hq, List.lookup, hk2, ih h]
      · simp [List.filter, hq, ih h]

/-- List form of the expiry sweep: if every binding of a code is past its
deadline, the sweep leaves no binding of that code behind. -/
theorem lookup_gc_list_eq_none (code : String) (now : Nat) (l : List (String × Nat))
    (h : ∀ t, (code, t) ∈ l → t + AUTH_TTL_MS ≤ now) :
    (l.filter (fun p => decide (now < p.2 + AUTH_TTL_MS))).lookup code = none := by
  induction l with
  | nil => rfl
  | cons hd tl ih =>
    rcases hd with ⟨k, t⟩
    have htl : ∀ t', (code, t') ∈ tl → t' + AUTH_TTL_MS ≤ now :=
      fun t' ht' => h t' (List.mem_cons_of_mem _ ht')
    by_cases hk : k = code
    · subst hk
      have ht : t + AUTH_TTL_MS ≤ now := h t (List.mem_cons_self _ _)
      have hlt : ¬ (now < t + AUTH_TTL_MS) := Nat.not_lt.mpr ht
      simpa [List.filter, hlt] using ih htl
    · have hk2 : (code == k) = false := by simpa using Ne.symm hk
      by_cases hq : now < t + AUTH_TTL_MS
      · simpa [List.filter, hq, List.lookup, hk2] using ih htl
      · simpa [List.filter, hq] using ih htl

/-- If every binding of a code is past its deadline, the expiry sweep leaves
no binding of that code behind. -/
theorem lookup_gcAuth_eq_none (code : String) (now : Nat) (st : Broker)
    (h : ∀ t, (code, t) ∈ st.pending → t + AUTH_TTL_MS ≤ now) :
    (gcAuth now st).pending.lookup code = none :=
  lookup_gc_list_eq_none code now st.pending h

/-- The reset statement does not change the key column. -/
theorem resetUserRow_telegram_id (today : Nat) (u : User) :
    (resetUserRow today u).telegram_id = u.telegram_id := by
  unfold resetUserRow
  rcases u.last_reset with _ | d
  · rfl
  · by_cases h : d < today <;> simp [h]

/-- Looking a user up after the global lazy reset finds exactly the reset
image of the row found before it. -/
theorem getUser_resetDailyLimit (today : Nat) (db : Db) (tid : String) :
    getUser (resetDailyLimit today db) tid =
      (getUser db tid).map (resetUserRow today) := by
  unfold getUser resetDailyLimit
  induction db.users with
  | nil => rfl
  | cons hd tl ih =>
    by_cases h : hd.telegram_id = tid
    · simp [List.find?, resetUserRow_telegram_id, h]
    · have h1 : (hd.telegram_id == tid) = false := by simpa using h
      have h2 : ((resetUserRow today hd).telegram_id == tid) = false := by
        rw [resetUserRow_telegram_id]; simpa using h
      simpa [List.find?, h1, h2] using ih

/-- The reset statement only rewrites the users table. -/
theorem resetDailyLimit_nextMessageId (today : Nat) (db : Db) :
    (resetDailyLimit today db).nextMessageId = db.nextMessageId := rfl

/-- The reset statement never touches the aggregate counters. -/
theorem resetUserRow_totals (today : Nat) (u : User) :
    (resetUserRow today u).total_messages = u.total_messages ∧
      (resetUserRow today u).total_tokens = u.total_tokens := by
  unfold resetUserRow
  rcases u.last_reset with _ | d
  · exact ⟨rfl, rfl⟩
  · by_cases h : d < today <;> simp [h]

-- ---------------------------------------------------------------------------
-- Concrete fixtures used by witnesses and counterexamples
-- ---------------------------------------------------------------------------

/-- A plain, unblocked user whose daily window was last reset on day 10. -/
def userA : User :=
  { id := 1, telegram_id := "1001", username := "alice", first_name := "A", last_name := ""
    role := "user", plan := "free", daily_limit := 100, used_today := 0
    total_messages := 0, total_tokens := 0, total_chats := 0
    last_reset := some 10, is_blocked := false }

/-- A second user who exhausted the day-9 window and was not yet reset. -/
def userB : User :=
  { id := 2, telegram_id := "1002", username := "bob", first_name := "B", last_name := ""
    role := "user", plan := "free", daily_limit := 100, used_today := 100
    total_messages := 200, total_tokens := 999, total_chats := 1
    last_reset := some 9, is_blocked := false }

/-- An existing but blocked user. -/
def userBlocked : User :=
  { id := 3, telegram_id := "1003", username := "mallory", first_name := "M", last_name := ""
    role := "user", plan := "free", daily_limit := 100, used_today := 0
    total_messages := 0, total_tokens := 0, total_chats := 0
    last_reset := some 10, is_blocked := true }

/-- A chat owned by `userA`. -/
def chatA : Chat := { id := 5, user_id := 1, title := "Новый чат", model := "gemini-pro", updated_at := 0 }

/-- A chat owned by `userB`. -/
def chatB : Chat := { id := 7, user_id := 2, title := "Новый чат", model := "gemini-pro", updated_at := 0 }

/-- A database holding `userA` and its chat. -/
def dbA : Db := { users := [userA], chats := [chatA], messages := [], nextUserId := 4, nextMessageId := 1 }

/-- A database holding the blocked user. -/
def dbBlocked : Db := { users := [userBlocked], chats := [], messages := [], nextUserId := 4, nextMessageId := 1 }

/-- A database holding `userA` and `userB` with the chat of `userB`. -/
def dbAB : Db := { users := [userA, userB], chats := [chatB], messages := [], nextUserId := 4, nextMessageId := 1 }

/-- A successful AI generation outcome. -/
def aiOk : AiResponse := { content := "ответ", tokens := 3, processingTime := 5, model := "gemini-pro" }

-- ---------------------------------------------------------------------------
-- C10
-- ---------------------------------------------------------------------------

/-- C10: every user row created through the `createUser` statement of
`src/index.js` starts with `last_reset = NULL` (the schema declares no
default), and the daily-reset statement, whose WHERE clause requires
`date(last_reset) < date(now)`, never matches a NULL row — so the lazy day
rollover never resets such a user, on any day, until `last_reset` is first
set by some other means. -/
theorem c10_null_last_reset_never_reset :
    (∀ (uid : Nat) (tg : TgUser), (mkNewUser uid tg).last_reset = none) ∧
    (∀ (u : User) (today : Nat), u.last_reset = none → resetUserRow today u = u) ∧
    (∀ (db : Db) (today : Nat) (u : User), u.last_reset = none → u ∈ db.users →
      u ∈ (resetDailyLimit today db).users) := by
  have hrow : ∀ (u : User) (today : Nat), u.last_reset = none → resetUserRow today u = u := by
    intro u today h
    unfold resetUserRow
    rw [h]
  refine ⟨fun uid tg => rfl, hrow, ?_⟩
  intro db today u h hmem
  have := List.mem_map_of_mem (resetUserRow today) hmem
  rwa [hrow u today h] at this

/-- Witness for C10 at a concrete freshly created user. -/
theorem c10_null_last_reset_never_reset_witness :
    resetUserRow 12 (mkNewUser 7 { id := 42, username := none, first_name := none, last_name := none }) =
      mkNewUser 7 { id := 42, username := none, first_name := none, last_name := none } :=
  c10_null_last_reset_never_reset.2.1 _ 12 rfl

-- ---------------------------------------------------------------------------
-- C8
-- ---------------------------------------------------------------------------

/-- C8: the auth middleware rejects a token whose signature is invalid, whose
expiry has passed, whose subject resolves to no user row, or whose subject is
blocked — in every case answering 401 with no identity attached. -/
theorem c8_authMiddleware_rejects (db : Db) (secret : String) (now : Nat) (t : Token)
    (h : t.secret ≠ secret ∨ t.exp ≤ now ∨ getUser db t.payload.telegramId = none ∨
      (∃ u, getUser db t.payload.telegramId = some u ∧ u.is_blocked = true)) :
    (∃ msg, authMiddleware db secret now (some t) = .unauthorized msg) ∧
    (authMiddleware db secret now (some t)).isOk = false := by
  by_cases hc : (t.secret == secret && decide (now < t.exp)) = true
  · have hv : jwtVerify t secret now = some t.payload := by
      unfold jwtVerify
      rw [if_pos hc]
    have hsig : t.secret = secret := by
      have := (Bool.and_eq_true _ _).mp hc
      exact eq_of_beq this.1
    have hexp : now < t.exp := by
      have := (Bool.and_eq_true _ _).mp hc
      exact of_decide_eq_true this.2
    rcases h with h1 | h2 | h3 | h4
    · exact absurd hsig h1
    · exact absurd hexp (Nat.not_lt.mpr h2)
    · refine ⟨⟨"Доступ запрещён", ?_⟩, ?_⟩ <;>
        simp [authMiddleware, hv, h3, AuthOut.isOk]
    · rcases h4 with ⟨u, hu, hb⟩
      refine ⟨⟨"Доступ запрещён", ?_⟩, ?_⟩ <;>
        simp [authMiddleware, hv, hu, hb, AuthOut.isOk]
  · have hv : jwtVerify t secret now = none := by
      unfold jwtVerify
      rw [if_neg hc]
    refine ⟨⟨"Неверный токен", ?_⟩, ?_⟩ <;>
      simp [authMiddleware, hv, AuthOut.isOk]

/-- Witness for C8: a token signed with the wrong secret is rejected. -/
theorem c8_authMiddleware_rejects_witness :
    (∃ msg, authMiddleware dbA "s3cr3t" 0
        (some (jwtSign { userId := 1, telegramId := "1001" } "wrong" 0)) = .unauthorized msg) ∧
    (authMiddleware dbA "s3cr3t" 0
        (some (jwtSign { userId := 1, telegramId := "1001" } "wrong" 0))).isOk = false :=
  c8_authMiddleware_rejects dbA "s3cr3t" 0 _ (Or.inl (by decide))

-- ---------------------------------------------------------------------------
-- C7
-- ---------------------------------------------------------------------------

/-- C7 counterexample: `userBlocked` is an existing identity, yet a token
signed for it with the server secret and presented immediately to the auth
middleware is rejected with 401 — so the claim, quantified over EVERY
existing identity, fails for blocked identities. -/
theorem c7_counterexample :
    getUser dbBlocked "1003" = some userBlocked ∧
    authMiddleware dbBlocked "s3cr3t" 0
      (some (jwtSign { userId := 3, telegramId := "1003" } "s3cr3t" 0)) =
      .unauthorized "Доступ запрещён" :=
  ⟨rfl, rfl⟩

/-- C7 amended: for every existing identity that is NOT blocked, signing a
token with the server secret and checking it immediately in the auth
middleware succeeds and attaches exactly that identity; the same token
presented once the 7-day window has elapsed is rejected (with the uniform
invalid-token 401 of the middleware catch branch). -/
theorem c7_token_roundtrip (db : Db) (secret : String) (now : Nat) (u : User)
    (hu : getUser db u.telegram_id = some u) (hb : u.is_blocked = false) :
    authMiddleware db secret now
      (some (jwtSign { userId := u.id, telegramId := u.telegram_id } secret now)) = .ok u ∧
    ∀ later, now + JWT_TTL_MS ≤ later →
      authMiddleware db secret later
        (some (jwtSign { userId := u.id, telegramId := u.telegram_id } secret now)) =
        .unauthorized "Неверный токен" := by
  constructor
  · have hfresh : now < now + JWT_TTL_MS :=
      Nat.lt_add_of_pos_right (by norm_num [JWT_TTL_MS])
    simp [authMiddleware, jwtVerify, jwtSign, hu, hb, hfresh]
  · intro later hlater
    have hstale : ¬ (later < now + JWT_TTL_MS) := Nat.not_lt.mpr hlater
    simp [authMiddleware, jwtVerify, jwtSign, hstale]

/-- Witness for C7 amended at the concrete user `userA`. -/
theorem c7_token_roundtrip_witness :
    authMiddleware dbA "s3cr3t" 0
      (some (jwtSign { userId := 1, telegramId := "1001" } "s3cr3t" 0)) = .ok userA ∧
    authMiddleware dbA "s3cr3t" JWT_TTL_MS
      (some (jwtSign { userId := 1, telegramId := "1001" } "s3cr3t" 0)) =
      .unauthorized "Неверный токен" :=
  ⟨(c7_token_roundtrip dbA "s3cr3t" 0 userA rfl rfl).1,
   (c7_token_roundtrip dbA "s3cr3t" 0 userA rfl rfl).2 JWT_TTL_MS (by simp)⟩

-- ---------------------------------------------------------------------------
-- C6
-- ---------------------------------------------------------------------------

/-- C6: an identity whose `last_reset` date is strictly earlier than today and
whose `used_today` is 100 has its counter reset to 0 and its `last_reset` set
to today by the lazy reset at the top of the send-message handler, before the
limit comparison — so the request is not rejected for quota.  The SQLite
statements compare whole calendar dates (`date(...)`), so the wall-clock time
of day never enters the comparison. -/
theorem c6_day_rollover (db : Db) (today : Nat) (tid : String) (u : User) (d : Nat)
    (chatId : Nat) (content : String) (gen : Except String AiResponse)
    (hu : getUser db tid = some u) (hd : u.last_reset = some d) (hlt : d < today)
    (_hused : u.used_today = 100) (hlimit : 0 < u.daily_limit) :
    getUser (resetDailyLimit today db) tid =
      some { u with used_today := 0, last_reset := some today } ∧
    (sendMessageIndex db today tid chatId content gen).1.isQuotaExceeded = false := by
  have hreset : resetUserRow today u = { u with used_today := 0, last_reset := some today } := by
    unfold resetUserRow
    rw [hd]
    simp [hlt]
  have hg : getUser (resetDailyLimit today db) tid =
      some { u with used_today := 0, last_reset := some today } := by
    rw [getUser_resetDailyLimit, hu, Option.map_some', hreset]
  refine ⟨hg, ?_⟩
  have hnle : ¬ (({ u with used_today := 0, last_reset := some today } : User).daily_limit ≤
      ({ u with used_today := 0, last_reset := some today } : User).used_today) := by
    simpa using Nat.not_le.mpr hlimit
  simp only [sendMessageIndex, hg, if_neg hnle]
  rcases hch : getChat (resetDailyLimit today db) chatId
      ({ u with used_today := 0, last_reset := some today } : User).id with _ | chat
  · simp [hch, SendOut.isQuotaExceeded]
  · rcases gen with e | ai <;> simp [hch, SendOut.isQuotaExceeded]

/-- Witness for C6: `userB` exhausted the day-9 window; on day 10 the send
handler resets the counter first and does not answer 429. -/
theorem c6_day_rollover_witness :
    getUser (resetDailyLimit 10 dbAB) "1002" =
      some { userB with used_today := 0, last_reset := some 10 } ∧
    (sendMessageIndex dbAB 10 "1002" 7 "привет" (.ok aiOk)).1.isQuotaExceeded = false :=
  c6_day_rollover dbAB 10 "1002" userB 9 7 "привет" (.ok aiOk) rfl rfl
    (by decide) rfl (by decide)

-- ---------------------------------------------------------------------------
-- C4
-- ---------------------------------------------------------------------------

/-- C4: when, after the lazy reset, the requesting identity still has
`used_today >= daily_limit`, the send-message handler answers 429 and the
final database state is exactly the post-reset state: the message store and
every aggregate counter are untouched, and (whenever the daily limit is
positive) the requester row itself is untouched — the reset cannot have
applied to it, so its `used_today` equals its pre-request value. -/
theorem c4_quota_exceeded_no_mutation (db : Db) (today : Nat) (tid : String) (u : User)
    (chatId : Nat) (content : String) (gen : Except String AiResponse)
    (hu : getUser (resetDailyLimit today db) tid = some u)
    (hq : u.daily_limit ≤ u.used_today) :
    sendMessageIndex db today tid chatId content gen = (.quotaExceeded, resetDailyLimit today db) ∧
    (resetDailyLimit today db).messages = db.messages ∧
    (resetDailyLimit today db).chats = db.chats ∧
    (∀ v : User, (resetUserRow today v).total_messages = v.total_messages ∧
      (resetUserRow today v).total_tokens = v.total_tokens) ∧
    (0 < u.daily_limit → getUser db tid = some u) := by
  refine ⟨?_, rfl, rfl, fun v => resetUserRow_totals today v, ?_⟩
  · simp only [sendMessageIndex, hu, if_pos hq]
  · intro hpos
    have h0 : 0 < u.used_today := Nat.lt_of_lt_of_le hpos hq
    have hmap := getUser_resetDailyLimit today db tid
    rw [hu] at hmap
    rcases hw : getUser db tid with _ | w
    · rw [hw] at hmap
      simp at hmap
    · rw [hw, Option.map_some'] at hmap
      have hwu : resetUserRow today w = u := by
        exact (Option.some.injEq _ _).mp hmap.symm
      have hww : w = u := by
        unfold resetUserRow at hwu
        rcases hlr : w.last_reset with _ | d
        · rw [hlr] at hwu
          simpa using hwu
        · rw [hlr] at hwu
          by_cases hdl : d < today
          · exfalso
            simp only [hdl, if_true] at hwu
            have hu0 := congrArg User.used_today hwu
            simp at hu0
            omega
          · simp only [hdl, if_false] at hwu
            simpa using hwu
      rw [hww]

/-- Witness for C4: `userB` is over quota on day 9 (no rollover yet); the
handler answers 429 and the database is left at its post-reset state, which
on day 9 changes nothing at all. -/
theorem c4_quota_exceeded_no_mutation_witness :
    sendMessageIndex dbAB 9 "1002" 7 "привет" (.ok aiOk) = (.quotaExceeded, resetDailyLimit 9 dbAB) ∧
    (resetDailyLimit 9 dbAB).messages = dbAB.messages ∧
    (resetDailyLimit 9 dbAB).chats = dbAB.chats ∧
    (∀ v : User, (resetUserRow 9 v).total_messages = v.total_messages ∧
      (resetUserRow 9 v).total_tokens = v.total_tokens) ∧
    (0 < userB.daily_limit → getUser dbAB "1002" = some userB) :=
  c4_quota_exceeded_no_mutation dbAB 9 "1002" userB 7 "привет" (.ok aiOk) rfl (by decide)

-- ---------------------------------------------------------------------------
-- C3
-- ---------------------------------------------------------------------------

/-- C3: a code registered by `/api/auth/init` and never confirmed is removed
from `authRequests` by its five-minute deletion timer; from then on the code
is never resolvable — the bot confirm branch answers invalid-code and the
status route answers expired.  The first hypothesis rules out an unrelated
live binding of the same uuid already present before registration. -/
theorem c3_timeout_expires (st : Broker) (db : Db) (secret code : String) (t0 now : Nat)
    (tg : TgUser)
    (hfresh : ∀ t, (code, t) ∈ st.pending → t + AUTH_TTL_MS ≤ now)
    (ht0 : t0 + AUTH_TTL_MS ≤ now) :
    (gcAuth now (authInit st code t0)).pending.lookup code = none ∧
    authStatusIndex (authInit st code t0) code now = .expired ∧
    (handleWebAuth secret (authInit st code t0) db code tg now).1 = .invalidCode := by
  have hall : ∀ t, (code, t) ∈ (authInit st code t0).pending → t + AUTH_TTL_MS ≤ now := by
    intro t ht
    rcases List.mem_cons.mp ht with h | h
    · rw [Prod.mk.injEq] at h
      rw [h.2]
      exact ht0
    · exact hfresh t h
  have hnone := lookup_gcAuth_eq_none code now _ hall
  refine ⟨hnone, ?_, ?_⟩
  · unfold authStatusIndex
    rw [hnone]
  · unfold handleWebAuth
    simp only [hnone]

/-- Witness for C3: a code registered at time 0 with no prior binding is gone
at the five-minute mark. -/
theorem c3_timeout_expires_witness :
    (gcAuth AUTH_TTL_MS (authInit { pending := [], resolvedLog := [] } "code-x" 0)).pending.lookup "code-x" = none ∧
    authStatusIndex (authInit { pending := [], resolvedLog := [] } "code-x" 0) "code-x" AUTH_TTL_MS = .expired ∧
    (handleWebAuth "s3cr3t" (authInit { pending := [], resolvedLog := [] } "code-x" 0) dbA "code-x"
      { id := 42, username := none, first_name := none, last_name := none } AUTH_TTL_MS).1 = .invalidCode :=
  c3_timeout_expires { pending := [], resolvedLog := [] } dbA "s3cr3t" "code-x" 0 AUTH_TTL_MS
    { id := 42, username := none, first_name := none, last_name := none }
    (fun _t ht => absurd ht (List.not_mem_nil _)) (Nat.le_refl _)

-- ---------------------------------------------------------------------------
-- C2
-- ---------------------------------------------------------------------------

/-- C2: once a first confirmation has resolved a code (deleting it from
`authRequests`), a second confirmation attempt for the same code is rejected
as an unknown code: it adds nothing to the resolution log (so the first
issued token is not overwritten and the entry is not re-resolved), leaves the
database untouched, and — being a total function — cannot crash. -/
theorem c2_second_confirm_rejected (secret : String) (st st1 : Broker) (db db1 : Db)
    (code : String) (tg1 tg2 : TgUser) (now1 now2 : Nat) (r : Resolution)
    (h : handleWebAuth secret st db code tg1 now1 = (.confirmed r, st1, db1)) :
    (handleWebAuth secret st1 db1 code tg2 now2).1 = .invalidCode ∧
    (handleWebAuth secret st1 db1 code tg2 now2).2.1.resolvedLog = st1.resolvedLog ∧
    (handleWebAuth secret st1 db1 code tg2 now2).2.2 = db1 ∧
    st1.resolvedLog = (code, r) :: (gcAuth now1 st).resolvedLog := by
  simp only [handleWebAuth] at h
  rcases hl : (gcAuth now1 st).pending.lookup code with _ | created
  · rw [hl] at h
    simp at h
  · rw [hl] at h
    simp only [Prod.mk.injEq] at h
    obtain ⟨hr, hst1, -⟩ := h
    have hr2 :
        ({ token := jwtSign { userId := (getOrCreateUser db tg1).2.id,
                              telegramId := (getOrCreateUser db tg1).2.telegram_id } secret now1
           user := (getOrCreateUser db tg1).2 } : Resolution) = r := by
      injection hr
    have hpend : st1.pending.lookup code = none := by
      rw [← hst1]
      exact lookup_filter_self_eq_none code _
    have hgone : List.lookup code
        (List.filter (fun p => decide (now2 < p.2 + AUTH_TTL_MS)) st1.pending) = none :=
      lookup_filter_eq_none code st1.pending _ hpend
    have hlog : st1.resolvedLog = (code, r) :: (gcAuth now1 st).resolvedLog := by
      rw [← hst1, hr2]
    refine ⟨?_, ?_, ?_, hlog⟩ <;>
      simp only [handleWebAuth, gcAuth, hgone]

/-- Witness for C2: a concrete code confirmed once at time 1000 is rejected
when confirmed again at time 2000. -/
theorem c2_second_confirm_rejected_witness :
    (handleWebAuth "s3cr3t"
      (handleWebAuth "s3cr3t" (authInit { pending := [], resolvedLog := [] } "code-y" 0) dbA "code-y"
        { id := 42, username := none, first_name := none, last_name := none } 1000).2.1
      (handleWebAuth "s3cr3t" (authInit { pending := [], resolvedLog := [] } "code-y" 0) dbA "code-y"
        { id := 42, username := none, first_name := none, last_name := none } 1000).2.2
      "code-y" { id := 43, username := none, first_name := none, last_name := none } 2000).1 =
      .invalidCode :=
  (c2_second_confirm_rejected "s3cr3t" (authInit { pending := [], resolvedLog := [] } "code-y" 0)
    (handleWebAuth "s3cr3t" (authInit { pending := [], resolvedLog := [] } "code-y" 0) dbA "code-y"
      { id := 42, username := none, first_name := none, last_name := none } 1000).2.1
    dbA
    (handleWebAuth "s3cr3t" (authInit { pending := [], resolvedLog := [] } "code-y" 0) dbA "code-y"
      { id := 42, username := none, first_name := none, last_name := none } 1000).2.2
    "code-y" { id := 42, username := none, first_name := none, last_name := none }
    { id := 43, username := none, first_name := none, last_name := none } 1000 2000
    { token := jwtSign { userId := 4, telegramId := "42" } "s3cr3t" 1000
      user := mkNewUser 4 { id := 42, username := none, first_name := none, last_name := none } }
    rfl).1

-- ---------------------------------------------------------------------------
-- C1
-- ---------------------------------------------------------------------------

/-- The Telegram user confirming the handshake in the C1 trace. -/
def tgPoll : TgUser := { id := 501, username := some "polly", first_name := some "P", last_name := none }

/-- An empty database (fresh deployment). -/
def dbEmpty : Db := { users := [], chats := [], messages := [], nextUserId := 1, nextMessageId := 1 }

/-- The broker right after `/api/auth/init` registered code-1 at time 0. -/
def stInit : Broker := authInit { pending := [], resolvedLog := [] } "code-1" 0

/-- C1: in `src/index.js` the status route races the STORED RESOLVE FUNCTION
(a plain value, not a promise) against the 30-second timer, so the race
settles immediately with the function, whose `success` field is undefined:
the route can never answer `success` with the token.  Concretely, on the
trace init(code-1)@0, poll@1s, confirm@10s (once, well inside the timeout),
poll@20s: the pre-confirmation poll answers `pending`, the confirmation
itself resolves and issues the token, and the post-confirmation poll answers
`expired` — no poll ever receives the token the claim promises. -/
theorem c1_status_race_never_success :
    (∀ (st : Broker) (code : String) (now : Nat),
      (authStatusIndex st code now).isSuccess = false) ∧
    authStatusIndex stInit "code-1" 1000 = .pending ∧
    (handleWebAuth "s3cr3t" stInit dbEmpty "code-1" tgPoll 10000).1 =
      .confirmed { token := jwtSign { userId := 1, telegramId := "501" } "s3cr3t" 10000
                   user := mkNewUser 1 tgPoll } ∧
    authStatusIndex (handleWebAuth "s3cr3t" stInit dbEmpty "code-1" tgPoll 10000).2.1
      "code-1" 20000 = .expired := by
  refine ⟨?_, rfl, rfl, rfl⟩
  intro st code now
  unfold authStatusIndex
  rcases h : (gcAuth now st).pending.lookup code with _ | t
  · rfl
  · have hrace : ¬ (now + POLL_TIMEOUT_MS < now) := Nat.not_lt.mpr (Nat.le_add_right _ _)
    simp [promiseRace, hrace, statusValueToResponse, StatusOut.isSuccess]

-- ---------------------------------------------------------------------------
-- C5
-- ---------------------------------------------------------------------------

/-- C5 counterexample, against the part_000 variant: with the chat owned by
the requester and the quota open (`used_today = 0`), an UPSTREAM GENERATION
FAILURE (axios error, status 500) is absorbed by `AI.chat` into a placeholder
string; the handler stores that string as an assistant turn, answers success,
and commits the quota — `used_today` becomes 1, although the claim says a
failed generation must not increment it and must answer with an error instead
of an assistant turn. -/
theorem c5_counterexample :
    userA.used_today = 0 ∧
    (getUser (sendMessagePart000 dbA 10 "1001" 1 5 "hi" true
        (.error { status := some 500 })).2 "1001").map User.used_today = some 1 ∧
    (sendMessagePart000 dbA 10 "1001" 1 5 "hi" true (.error { status := some 500 })).1 =
      .ok { id := 1, chat_id := 5, role := "user", content := "hi"
            model := none, tokens := 0, processing_time := 0 }
          { id := 2, chat_id := 5, role := "assistant"
            content := part000ErrorText { status := some 500 }
            model := none, tokens := 0, processing_time := 0 } :=
  ⟨rfl, rfl, rfl⟩

/-- C5 amended: in `src/index.js` the quota commit happens only after the AI
reply is successfully produced — when `aiService.generate` fails, the handler
answers a 500 error, the already-persisted user turn remains the only new
message, and no user row (in particular no `used_today`) changes.  In the
part_000 variant, by contrast, `AI.chat` converts an upstream failure into a
placeholder string which is stored as an assistant turn, the response is a
success, and the quota IS committed. -/
theorem c5_commit_only_after_success :
    (∀ (db : Db) (today : Nat) (tid : String) (chatId : Nat) (content e : String)
        (u : User) (chat : Chat),
      getUser (resetDailyLimit today db) tid = some u →
      u.used_today < u.daily_limit →
      getChat (resetDailyLimit today db) chatId u.id = some chat →
      (sendMessageIndex db today tid chatId content (.error e)).1 =
        .genError ("Ошибка генерации ответа: " ++ e) ∧
      (sendMessageIndex db today tid chatId content (.error e)).2.users =
        (resetDailyLimit today db).users ∧
      (sendMessageIndex db today tid chatId content (.error e)).2.messages =
        (resetDailyLimit today db).messages ++
          [{ id := db.nextMessageId, chat_id := chatId, role := "user", content := content
             model := none, tokens := 0, processing_time := 0 }]) ∧
    (∀ (db : Db) (today : Nat) (tid : String) (ruid chatId : Nat) (content : String)
        (err : AxiosErr) (u : User) (chat : Chat),
      isBlank content = false →
      getChat db chatId ruid = some chat →
      getUser (resetDailyLimit today db) tid = some u →
      u.used_today < u.daily_limit →
      (sendMessagePart000 db today tid ruid chatId content true (.error err)).1 =
        .ok { id := db.nextMessageId, chat_id := chatId, role := "user", content := content
              model := none, tokens := 0, processing_time := 0 }
            { id := db.nextMessageId + 1, chat_id := chatId, role := "assistant"
              content := part000ErrorText err, model := none, tokens := 0, processing_time := 0 } ∧
      (sendMessagePart000 db today tid ruid chatId content true (.error err)).2.users =
        (resetDailyLimit today db).users.map (fun v =>
          if v.id == u.id then
            { v with used_today := v.used_today + 1, total_messages := v.total_messages + 1 }
          else v)) := by
  constructor
  · intro db today tid chatId content e u chat hu hlt hch
    have hnle : ¬ (u.daily_limit ≤ u.used_today) := Nat.not_le.mpr hlt
    refine ⟨?_, ?_, ?_⟩ <;>
      simp [sendMessageIndex, hu, if_neg hnle, hch, createMessage,
        resetDailyLimit_nextMessageId]
  · intro db today tid ruid chatId content err u chat hc hch hu hlt
    have hnle : ¬ (u.daily_limit ≤ u.used_today) := Nat.not_le.mpr hlt
    refine ⟨?_, ?_⟩ <;>
      simp [sendMessagePart000, hc, hch, hu, if_neg hnle, createMessage,
        aiChatPart000, incrementUsage, resetDailyLimit_nextMessageId]

/-- Witness for C5 amended: both conjuncts at a concrete database. -/
theorem c5_commit_only_after_success_witness :
    (sendMessageIndex dbA 10 "1001" 5 "hi" (.error "boom")).1 =
      .genError ("Ошибка генерации ответа: " ++ "boom") ∧
    (sendMessagePart000 dbA 10 "1001" 1 5 "hi" true (.error { status := none })).2.users =
      (resetDailyLimit 10 dbA).users.map (fun v =>
        if v.id == userA.id then
          { v with used_today := v.used_today + 1, total_messages := v.total_messages + 1 }
        else v) :=
  ⟨((c5_commit_only_after_success.1 dbA 10 "1001" 5 "hi" "boom" userA chatA
      rfl (by decide) rfl).1),
   ((c5_commit_only_after_success.2 dbA 10 "1001" 1 5 "hi" { status := none } userA chatA
      (by decide) rfl rfl (by decide)).2)⟩

-- ---------------------------------------------------------------------------
-- C9
-- ---------------------------------------------------------------------------

/-- C9 counterexample, against `src/index.js`: user A posts a message to the
chat of user B; the handler answers 404 from the ownership lookup, but it has
ALREADY run the global lazy daily reset, which zeroes the stale `used_today`
counter of B — so the request does mutate the counters of B, contrary to the
claim. -/
theorem c9_counterexample :
    (sendMessageIndex dbAB 10 "1001" 7 "hi" (.ok aiOk)).1 = .notFound ∧
    (getUser dbAB "1002").map User.used_today = some 100 ∧
    (getUser (sendMessageIndex dbAB 10 "1001" 7 "hi" (.ok aiOk)).2 "1002").map
      User.used_today = some 0 :=
  ⟨rfl, rfl, rfl⟩

/-- C9 amended: every chat-scoped operation looks the chat up with both the
chat id and the id of the requesting user, and a miss answers 404.  The
list-messages route of both variants and the send route of part_000 perform
no mutation at all on a miss; the send route of `src/index.js` leaves the
database exactly at its post-reset state — it stores no message, changes no
chat, increments no usage or totals — but it has already applied the global
lazy daily reset, whose only effect on any row is the day rollover
(`used_today := 0`, `last_reset := today`) for stale users. -/
theorem c9_cross_user_isolation :
    (∀ (db : Db) (ruid chatId : Nat), getChat db chatId ruid = none →
      getMessagesIndex db ruid chatId = .notFound) ∧
    (∀ (db : Db) (today : Nat) (tid : String) (chatId : Nat) (content : String)
        (gen : Except String AiResponse) (u : User),
      getUser (resetDailyLimit today db) tid = some u →
      u.used_today < u.daily_limit →
      getChat (resetDailyLimit today db) chatId u.id = none →
      sendMessageIndex db today tid chatId content gen = (.notFound, resetDailyLimit today db)) ∧
    (∀ (db : Db) (today : Nat), (resetDailyLimit today db).messages = db.messages ∧
      (resetDailyLimit today db).chats = db.chats) ∧
    (∀ (today : Nat) (v : User), resetUserRow today v = v ∨
      resetUserRow today v = { v with used_today := 0, last_reset := some today }) ∧
    (∀ (db : Db) (today : Nat) (tid : String) (ruid chatId : Nat) (content : String)
        (hasKey : Bool) (upstream : Except AxiosErr String),
      getChat db chatId ruid = none →
      sendMessagePart000 db today tid ruid chatId content hasKey upstream =
        (if isBlank content = true then (.badRequest, db) else (.notFound, db))) := by
  refine ⟨?_, ?_, fun db today => ⟨rfl, rfl⟩, ?_, ?_⟩
  · intro db ruid chatId hch
    simp [getMessagesIndex, hch]
  · intro db today tid chatId content gen u hu hlt hch
    have hnle : ¬ (u.daily_limit ≤ u.used_today) := Nat.not_le.mpr hlt
    simp [sendMessageIndex, hu, if_neg hnle, hch]
  · intro today v
    unfold resetUserRow
    rcases v.last_reset with _ | d
    · exact Or.inl rfl
    · by_cases h : d < today
      · exact Or.inr (by simp [h])
      · exact Or.inl (by simp [h])
  · intro db today tid ruid chatId content hasKey upstream hch
    by_cases hc : isBlank content = true
    · simp [sendMessagePart000, hc]
    · simp only [Bool.not_eq_true] at hc
      simp [sendMessagePart000, hc, hch]

/-- Witness for C9 amended: concrete misses for both routes. -/
theorem c9_cross_user_isolation_witness :
    getMessagesIndex dbAB 1 7 = .notFound ∧
    sendMessageIndex dbAB 9 "1001" 7 "hi" (.ok aiOk) = (.notFound, resetDailyLimit 9 dbAB) ∧
    sendMessagePart000 dbAB 9 "1001" 1 7 "hi" true (.ok "текст") =
      (if isBlank "hi" = true then (.badRequest, dbAB) else (.notFound, dbAB)) :=
  ⟨c9_cross_user_isolation.1 dbAB 1 7 rfl,
   c9_cross_user_isolation.2.1 dbAB 9 "1001" 7 "hi" (.ok aiOk) userA rfl (by decide) rfl,
   c9_cross_user_isolation.2.2.2.2 dbAB 9 "1001" 1 7 "hi" true (.ok "текст") rfl⟩

end AIPlatform
